import Mathlib

/-!
Shallow embedding of `src/main.cpp` (TF-IDF similarity scorer).

Text is modelled as `List Char` (a `std::string` is a sequence of
characters).  `double` values are modelled exactly: the rational
intermediate results of `computeTF` as `ℚ`, and the logarithmic scores of
`computeIDF` and everything downstream as `ℝ`, with `log` as `Real.log`.
A `std::map` is modelled by its key list together with a total lookup
function that returns `0` for absent keys, which is exactly the
`operator[]` default-insertion behaviour the program relies on.  Key
iteration order (sorted for `std::map`, first-occurrence order here) only
ever feeds commutative sums, so it does not influence any computed value.
-/

namespace SimilarityScores

/-- ASCII lowercasing as performed by `::tolower` in the C locale
(`transform(input.begin(), input.end(), input.begin(), ::tolower)`):
uppercase letters are shifted by 32, every other character is unchanged. -/
def toLowerC (c : Char) : Char :=
  if 65 ≤ c.toNat ∧ c.toNat ≤ 90 then Char.ofNat (c.toNat + 32) else c

/-- The characters replaced by `removePunctuation`.  The C++ loop runs for
`sizeof(punctuation)` iterations over `char punctuation[] = ".,;:!?\"\n"`,
and `sizeof` counts the terminating NUL byte, so the NUL character is the
ninth member of the replaced set. -/
def punctuation : List Char :=
  ['.', ',', ';', ':', '!', '?', '"', '\n', Char.ofNat 0]

/-- `removePunctuation`: lowercase the whole string, then run one
`std::replace(input.begin(), input.end(), punctuation[i], ' ')` pass per
character of `punctuation`. -/
def removePunctuation (s : List Char) : List Char :=
  punctuation.foldl (fun acc p => acc.map (fun c => if c = p then ' ' else c))
    (s.map toLowerC)

/-- Splitting on the single space delimiter, as the
`getline(sentence, word, ' ')` loop of `getUniqueWords` does (empty pieces
between consecutive delimiters are produced and filtered out by the
caller). -/
def splitSpace (s : List Char) : List (List Char) :=
  s.foldr (fun c acc =>
    if c = ' ' then [] :: acc
    else match acc with
      | [] => [[c]]
      | t :: ts => (c :: t) :: ts) [[]]

/-- The token stream consumed by `getUniqueWords`: normalized text split on
spaces, with empty tokens discarded (`if ( word != "" )`). -/
def tokenizeDoc (text : List Char) : List (List Char) :=
  (splitSpace (removePunctuation text)).filter (· ≠ [])

/-- Lookup in the word→count map built by `getUniqueWords`: the number of
occurrences of `w` among the tokens, `0` when absent (the `std::map`
default). -/
def wordCount (text w : List Char) : Nat := (tokenizeDoc text).count w

/-- The key set of the map built by `getUniqueWords text`. -/
def uniqueWords (text : List Char) : List (List Char) := (tokenizeDoc text).dedup

/-- `nWords` in `computeTF`: the sum of all the counts stored in the
document's own word map — i.e. the document's total word count, including
words outside the reference vocabulary. -/
def totalWords (text : List Char) : Nat :=
  ((uniqueWords text).map (fun w => wordCount text w)).sum

/-- `computeTF`: for each document, map each reference word to its count in
that document (`0` when absent, per the `!wordsD[rWord]` test) divided by
the document's total word count.  The `refWords` argument fixes which keys
the C++ map holds; the lookup function is total, matching the
absent-key-is-0 semantics used downstream. -/
def computeTF (refWords : List (List Char)) (docs : List (List Char)) :
    List (List Char → ℚ) :=
  docs.map (fun d => fun w =>
    (if wordCount d w = 0 then 0 else (wordCount d w : ℚ)) / (totalWords d : ℚ))

/-- `nOcc` in `computeIDF`: the number of documents whose word map contains
`w` with a nonzero count (`if ( wordsD[rWord] ) nOcc++`). -/
def dfCount (docs : List (List Char)) (w : List Char) : Nat :=
  docs.countP (fun d => wordCount d w != 0)

/-- `computeIDF`: `log(nDocs/nOcc)` for each reference word. -/
noncomputable def computeIDF (refWords : List (List Char))
    (docs : List (List Char)) : (List Char) → ℝ :=
  fun w => Real.log ((docs.length : ℝ) / (dfCount docs w : ℝ))

/-- `computeTFIDF`: per document and reference word, `0` when either factor
is zero (`if ( !tf[i][rWord] || !idf[rWord] )`), otherwise `TF × IDF`. -/
noncomputable def computeTFIDF (refWords : List (List Char))
    (tf : List (List Char → ℚ)) (idf : (List Char) → ℝ) :
    List (List Char → ℝ) :=
  tf.map (fun tfd => fun w =>
    if tfd w = 0 ∨ idf w = 0 then 0 else (tfd w : ℝ) * idf w)

/-- The per-document inner loop of `getMostSimilarDocument`: cells are
added to `sum` only when nonzero (`if ( tfidf[i][it->first] )`), which is
of course the same as summing them all. -/
noncomputable def docSum (refWords : List (List Char))
    (cells : (List Char) → ℝ) : ℝ :=
  (refWords.map (fun w => if cells w ≠ 0 then cells w else 0)).sum

/-- `getMostSimilarDocument`: starting from `maxId = 0, maxSum = 0`, scan
documents `1 .. nDocs-1`; whenever `sum >= maxSum`, record `(i + 1, sum)`.
The returned value is the final `maxId` (a C++ `int`, modelled as `ℤ`). -/
noncomputable def getMostSimilarDocument (refWords : List (List Char))
    (tfidf : List (List Char → ℝ)) : ℤ :=
  (((List.range tfidf.length).drop 1).foldl
    (fun st i =>
      let s := docSum refWords (tfidf.getD i (fun _ => 0))
      if st.2 ≤ s then ((i : ℤ) + 1, s) else st)
    ((0 : ℤ), (0 : ℝ))).1

/-- The hardcoded corpus of `main`. -/
def Docs : List (List Char) :=
  ["I'd... like, an! apple.".data,
   "An apple a day keeps the doctor away.".data,
   "Never compare an apple to an orange.".data,
   "I prefer scikit-learn to orange.".data]

/-- `refWords = getUniqueWords(Docs[0])` — only its key set is read by the
rest of the pipeline. -/
def refWords : List (List Char) := uniqueWords (Docs.getD 0 [])

/-- The integer `main` writes to standard output. -/
noncomputable def programOutput : ℤ :=
  getMostSimilarDocument refWords
    (computeTFIDF refWords (computeTF refWords Docs) (computeIDF refWords Docs))

lemma rankLoop_spec (g : ℕ → ℝ) (k : ℕ) (hk : 1 ≤ k)
    (hnn : ∀ i, 1 ≤ i → i ≤ k → 0 ≤ g i) :
    ∃ m, 1 ≤ m ∧ m ≤ k ∧
      (List.range' 1 k).foldl (fun st i => if st.2 ≤ g i then ((i : ℤ) + 1, g i) else st)
        ((0 : ℤ), (0 : ℝ)) = ((m : ℤ) + 1, g m) ∧
      (∀ j, 1 ≤ j → j ≤ k → g j ≤ g m) ∧
      (∀ j, m < j → j ≤ k → g j < g m) := by
  induction k with
  | zero => omega
  | succ n ih =>
    by_cases hn : n = 0
    · subst hn
      refine ⟨1, le_refl 1, le_refl 1, ?_, ?_, ?_⟩
      · show (if ((0 : ℤ), (0 : ℝ)).2 ≤ g 1 then ((1 : ℤ) + 1, g 1) else ((0 : ℤ), (0 : ℝ))) =
          (((1 : ℕ) : ℤ) + 1, g 1)
        rw [if_pos (hnn 1 (le_refl 1) (le_refl 1))]
        norm_num
      · intro j h1 h2
        have : j = 1 := by omega
        subst this
        exact le_refl _
      · intro j h1 h2
        omega
    · obtain ⟨m, hm1, hm2, heq, hmax, hlast⟩ :=
        ih (by omega) (fun i h1 h2 => hnn i h1 (by omega))
      rw [show n + 1 = n + 1 from rfl, List.range'_concat, List.foldl_concat, heq]
      rw [show 1 + 1 * n = n + 1 from by ring]
      by_cases hc : g m ≤ g (n + 1)
      · refine ⟨n + 1, by omega, le_refl _, ?_, ?_, ?_⟩
        · show (if (((m : ℤ) + 1, g m)).2 ≤ g (n + 1) then (((n + 1 : ℕ) : ℤ) + 1, g (n + 1))
              else (((m : ℤ) + 1, g m))) = (((n + 1 : ℕ) : ℤ) + 1, g (n + 1))
          rw [if_pos hc]
        · intro j h1 h2
          rcases Nat.lt_or_ge j (n + 1) with h | h
          · exact le_trans (hmax j h1 (by omega)) hc
          · have : j = n + 1 := by omega
            subst this
            exact le_refl _
        · intro j hj1 hj2
          omega
      · push_neg at hc
        refine ⟨m, hm1, by omega, ?_, ?_, ?_⟩
        · show (if (((m : ℤ) + 1, g m)).2 ≤ g (n + 1) then (((n + 1 : ℕ) : ℤ) + 1, g (n + 1))
              else (((m : ℤ) + 1, g m))) = ((m : ℤ) + 1, g m)
          rw [if_neg (not_le.mpr hc)]
        · intro j h1 h2
          rcases Nat.lt_or_ge j (n + 1) with h | h
          · exact hmax j h1 (by omega)
          · have : j = n + 1 := by omega
            subst this
            exact le_of_lt hc
        · intro j hj1 hj2
          rcases Nat.lt_or_ge j (n + 1) with h | h
          · exact hlast j hj1 (by omega)
          · have : j = n + 1 := by omega
            subst this
            exact hc

lemma range_drop_one (n : ℕ) : (List.range n).drop 1 = List.range' 1 (n - 1) := by
  cases n with
  | zero => rfl
  | succ m =>
    rw [List.range_eq_range', List.range'_succ]
    simp

lemma docSum_nonneg (r : List (List Char)) (c : (List Char) → ℝ)
    (h : ∀ w, 0 ≤ c w) : 0 ≤ SimilarityScores.docSum r c := by
  apply List.sum_nonneg
  intro x hx
  obtain ⟨w, hw, rfl⟩ := List.mem_map.mp hx
  by_cases hc : c w ≠ 0
  · rw [if_pos hc]
    exact h w
  · rw [if_neg hc]

/-- Core behaviour of the ranking loop: when every candidate sum is
nonnegative (as is the case for every table the pipeline produces), the
returned id is `m + 1` where `m` is the greatest index among
`1 .. nDocs-1` attaining the maximal sum. -/
theorem gms_spec (r : List (List Char)) (T : List (List Char → ℝ))
    (h2 : 2 ≤ T.length)
    (hnn : ∀ i, 1 ≤ i → i < T.length → 0 ≤ docSum r (T.getD i (fun _ => 0))) :
    ∃ m, 1 ≤ m ∧ m < T.length ∧
      getMostSimilarDocument r T = (m : ℤ) + 1 ∧
      (∀ j, 1 ≤ j → j < T.length →
        docSum r (T.getD j (fun _ => 0)) ≤ docSum r (T.getD m (fun _ => 0))) ∧
      (∀ j, m < j → j < T.length →
        docSum r (T.getD j (fun _ => 0)) < docSum r (T.getD m (fun _ => 0))) := by
  obtain ⟨m, hm1, hm2, heq, hmax, hlast⟩ :=
    rankLoop_spec (fun i => docSum r (T.getD i (fun _ => 0))) (T.length - 1)
      (by omega) (fun i h1 h2 => hnn i h1 (by omega))
  refine ⟨m, hm1, by omega, ?_, ?_, ?_⟩
  · unfold getMostSimilarDocument
    rw [range_drop_one]
    exact congrArg Prod.fst heq
  · intro j h1 h2
    exact hmax j h1 (by omega)
  · intro j h1 h2
    exact hlast j h1 (by omega)


lemma tf_cell_nonneg (r docs : List (List Char)) :
    ∀ tfd ∈ computeTF r docs, ∀ w, 0 ≤ tfd w := by
  intro tfd h w
  obtain ⟨d, hd, rfl⟩ := List.mem_map.mp h
  simp only
  apply div_nonneg
  · split
    · exact le_refl 0
    · positivity
  · positivity

/-- Every cell of a table produced by the actual pipeline is nonnegative:
TF values are quotients of nonnegative numbers, and whenever the TF factor
is nonzero the word occurs in at least one document, so its IDF is
`log` of a ratio that is at least 1. -/
lemma pipeline_cells_nonneg (r docs : List (List Char)) :
    ∀ f ∈ computeTFIDF r (computeTF r docs) (computeIDF r docs), ∀ w, 0 ≤ f w := by
  intro f hf w
  obtain ⟨tfd, htfd, rfl⟩ := List.mem_map.mp hf
  simp only
  split
  · exact le_refl 0
  · rename_i hcond
    push_neg at hcond
    obtain ⟨htf, hidf⟩ := hcond
    obtain ⟨d, hd, rfl⟩ := List.mem_map.mp htfd
    have hwc : wordCount d w ≠ 0 := by
      intro h0
      apply htf
      simp only
      rw [if_pos h0, zero_div]
    have hdf1 : 0 < dfCount docs w := by
      apply List.countP_pos_iff.mpr
      exact ⟨d, hd, by simpa using hwc⟩
    have hdfn : dfCount docs w ≤ docs.length := List.countP_le_length _
    apply mul_nonneg
    · exact Rat.cast_nonneg.mpr (tf_cell_nonneg r docs _ (List.mem_map.mpr ⟨d, hd, rfl⟩) w)
    · apply Real.log_nonneg
      rw [le_div_iff₀ (by exact_mod_cast hdf1)]
      rw [one_mul]
      exact_mod_cast hdfn


lemma getD_mem_of_lt (T : List (List Char → ℝ)) (i : ℕ) (hi : i < T.length) :
    T.getD i (fun _ => 0) ∈ T := by
  rw [List.getD_eq_getElem _ _ hi]
  exact List.getElem_mem hi

/-- Claim C2: for every TF-IDF table with at least two documents (cells of a
TF-IDF table are nonnegative — see `pipeline_cells_nonneg` for the proof that
every table the pipeline produces satisfies this), the ranking loop only
considers indices `1 ≤ m < nDocs`, and the returned id is the winning
document's 0-based array index plus 1 — the winner being the greatest index
attaining the maximal sum.  In particular the result is at least 2, so the
value identifying the reference document at array index 0 is never returned. -/
theorem claim2_returns_winner_index_plus_one (r : List (List Char)) (T : List (List Char → ℝ))
    (h2 : 2 ≤ T.length) (hnn : ∀ f ∈ T, ∀ w, 0 ≤ f w) :
    ∃ m, 1 ≤ m ∧ m < T.length ∧
      getMostSimilarDocument r T = (m : ℤ) + 1 ∧
      (∀ j, 1 ≤ j → j < T.length →
        docSum r (T.getD j (fun _ => 0)) ≤ docSum r (T.getD m (fun _ => 0))) ∧
      (∀ j, m < j → j < T.length →
        docSum r (T.getD j (fun _ => 0)) < docSum r (T.getD m (fun _ => 0))) ∧
      2 ≤ getMostSimilarDocument r T := by
  obtain ⟨m, hm1, hm2, hres, hmax, hlast⟩ := gms_spec r T h2
    (fun i hi1 hi2 => docSum_nonneg r _ (hnn _ (getD_mem_of_lt T i hi2)))
  refine ⟨m, hm1, hm2, hres, hmax, hlast, ?_⟩
  rw [hres]
  omega

/-- Claim C3: when two candidate documents `i < j` have equal summed TF-IDF
and that sum is the maximum (with `j` the last index attaining it), the
ranker selects the one with the higher array index, because the running
maximum is updated on `sum >= maxSum` rather than strictly greater. -/
theorem claim3_tie_prefers_later_document (r : List (List Char)) (T : List (List Char → ℝ))
    (i j : ℕ) (hnn : ∀ f ∈ T, ∀ w, 0 ≤ f w)
    (h1i : 1 ≤ i) (hij : i < j) (hjn : j < T.length)
    (heq : docSum r (T.getD i (fun _ => 0)) = docSum r (T.getD j (fun _ => 0)))
    (hmax : ∀ k, 1 ≤ k → k < T.length →
      docSum r (T.getD k (fun _ => 0)) ≤ docSum r (T.getD j (fun _ => 0)))
    (hlast : ∀ k, j < k → k < T.length →
      docSum r (T.getD k (fun _ => 0)) < docSum r (T.getD j (fun _ => 0))) :
    getMostSimilarDocument r T = (j : ℤ) + 1 := by
  obtain ⟨m, hm1, hm2, hres, hmmax, hmlast⟩ := gms_spec r T (by omega)
    (fun a ha1 ha2 => docSum_nonneg r _ (hnn _ (getD_mem_of_lt T a ha2)))
  have hmj : m = j := by
    rcases lt_trichotomy m j with h | h | h
    · have ha : docSum r (T.getD j (fun _ => 0)) < docSum r (T.getD m (fun _ => 0)) :=
        hmlast j h hjn
      have hb : docSum r (T.getD m (fun _ => 0)) ≤ docSum r (T.getD j (fun _ => 0)) :=
        hmax m hm1 hm2
      linarith
    · exact h
    · have ha : docSum r (T.getD m (fun _ => 0)) < docSum r (T.getD j (fun _ => 0)) :=
        hlast m h hm2
      have hb : docSum r (T.getD j (fun _ => 0)) ≤ docSum r (T.getD m (fun _ => 0)) :=
        hmmax j (by omega) hjn
      linarith
  rw [hmj] at hres
  exact hres

/-- Claim C10: for every TF-IDF table with at most one document the ranking
loop body never runs and `getMostSimilarDocument` returns the initial
`maxId = 0`, a value that corresponds to no document id (ids are `i + 1 ≥ 2`,
and the reference document would be 1). -/
theorem claim10_returns_zero (r : List (List Char)) (T : List (List Char → ℝ))
    (h : T.length ≤ 1) : getMostSimilarDocument r T = 0 := by
  unfold getMostSimilarDocument
  rcases Nat.le_one_iff_eq_zero_or_eq_one.mp h with h0 | h0 <;> rw [h0] <;> rfl

/-- Claim C4: for every document set containing the reference document (at
position 0, as `main` arranges) and every word of the vocabulary
`getUniqueWords` builds from that reference document, the word occurs in at
least one document, so the `nOcc` denominator of `computeIDF` is nonzero and
the division-by-zero branch is unreachable. -/
theorem claim4_reference_word_df_positive (refDoc : List Char) (rest : List (List Char)) (w : List Char)
    (hw : w ∈ uniqueWords refDoc) :
    1 ≤ dfCount (refDoc :: rest) w ∧ ((dfCount (refDoc :: rest) w : ℝ) ≠ 0) := by
  have htok : w ∈ tokenizeDoc refDoc := List.mem_dedup.mp hw
  have hwc : wordCount refDoc w ≠ 0 := by
    have := List.count_pos_iff.mpr htok
    simp [wordCount]
    omega
  have h1 : 1 ≤ dfCount (refDoc :: rest) w := by
    have hb : (wordCount refDoc w != 0) = true := by simpa using hwc
    simp [dfCount, List.countP_cons, hb]
  exact ⟨h1, Nat.cast_ne_zero.mpr (by omega)⟩

lemma computeTFIDF_getD (r : List (List Char)) (tf : List (List Char → ℚ))
    (idf : (List Char) → ℝ) (i : ℕ) (hi : i < tf.length) (w : List Char) :
    (computeTFIDF r tf idf).getD i (fun _ => 0) w =
      if tf.getD i (fun _ => 0) w = 0 ∨ idf w = 0 then 0
      else (tf.getD i (fun _ => 0) w : ℝ) * idf w := by
  have h2 : i < (computeTFIDF r tf idf).length := by simpa [computeTFIDF] using hi
  rw [List.getD_eq_getElem _ _ h2, List.getD_eq_getElem _ _ hi]
  simp [computeTFIDF]

/-- Claim C5: for every word/document pair, the `computeTFIDF` cell is 0
whenever the TF value is 0 or the word's IDF value is 0 (absent map entries
are the total lookup functions returning 0), and is TF × IDF otherwise. -/
theorem claim5_tfidf_cell_value (r : List (List Char)) (tf : List (List Char → ℚ))
    (idf : (List Char) → ℝ) (i : ℕ) (hi : i < tf.length) (w : List Char) :
    (tf.getD i (fun _ => 0) w = 0 ∨ idf w = 0 →
      (computeTFIDF r tf idf).getD i (fun _ => 0) w = 0) ∧
    (tf.getD i (fun _ => 0) w ≠ 0 → idf w ≠ 0 →
      (computeTFIDF r tf idf).getD i (fun _ => 0) w =
        (tf.getD i (fun _ => 0) w : ℝ) * idf w) := by
  constructor
  · intro h
    rw [computeTFIDF_getD r tf idf i hi w, if_pos h]
  · intro h1 h2
    rw [computeTFIDF_getD r tf idf i hi w, if_neg (by tauto)]

lemma computeTF_getD (r docs : List (List Char)) (i : ℕ) (hi : i < docs.length)
    (w : List Char) :
    (computeTF r docs).getD i (fun _ => 0) w =
      (if wordCount (docs.getD i []) w = 0 then 0
       else (wordCount (docs.getD i []) w : ℚ)) / (totalWords (docs.getD i []) : ℚ) := by
  have h2 : i < (computeTF r docs).length := by simpa [computeTF] using hi
  rw [List.getD_eq_getElem _ _ h2, List.getD_eq_getElem _ _ hi]
  simp [computeTF]

lemma count_inst (a : List Char) (l : List (List Char)) :
    @List.count _ instBEqOfDecidableEq a l = l.count a := by
  induction l with
  | nil => rfl
  | cons b t ih =>
    by_cases h : b = a
    · simp [List.count_cons, ih, h]
    · simp [List.count_cons, ih, h]

lemma totalWords_eq_length (t : List Char) :
    totalWords t = (tokenizeDoc t).length := by
  simpa [totalWords, uniqueWords, wordCount, count_inst] using
    List.sum_map_count_dedup_eq_length (tokenizeDoc t)

/-- Claim C6: for every non-empty document and reference word, the
`computeTF` value is the word's count in the document's own word-count map
(0 if absent) divided by the document's total word count; the total counts
all words of the document, reference or not (it equals the token count); and
each such TF value lies in `[0, 1]`. -/
theorem claim6_tf_value_and_bounds (r docs : List (List Char)) (i : ℕ) (hi : i < docs.length)
    (w : List Char) (hw : w ∈ r) (hpos : 0 < totalWords (docs.getD i [])) :
    (computeTF r docs).getD i (fun _ => 0) w =
      (wordCount (docs.getD i []) w : ℚ) / (totalWords (docs.getD i []) : ℚ) ∧
    totalWords (docs.getD i []) = (tokenizeDoc (docs.getD i [])).length ∧
    0 ≤ (computeTF r docs).getD i (fun _ => 0) w ∧
    (computeTF r docs).getD i (fun _ => 0) w ≤ 1 := by
  have hval : (computeTF r docs).getD i (fun _ => 0) w =
      (wordCount (docs.getD i []) w : ℚ) / (totalWords (docs.getD i []) : ℚ) := by
    rw [computeTF_getD r docs i hi w]
    by_cases h0 : wordCount (docs.getD i []) w = 0
    · rw [if_pos h0, h0]
      simp
    · rw [if_neg h0]
  have hcnt : wordCount (docs.getD i []) w ≤ totalWords (docs.getD i []) := by
    rw [totalWords_eq_length]
    exact List.count_le_length _ _
  refine ⟨hval, totalWords_eq_length _, ?_, ?_⟩
  · rw [hval]
    positivity
  · rw [hval, div_le_one (by exact_mod_cast hpos)]
    exact_mod_cast hcnt

/-- Claim C7: for every reference word with document frequency at least 1,
`computeIDF` yields the natural logarithm of (number of documents / df), and
a word occurring in all documents gets IDF 0. -/
theorem claim7_idf_formula (r docs : List (List Char)) (w : List Char)
    (hw : w ∈ r) (hdf : 1 ≤ dfCount docs w) :
    computeIDF r docs w = Real.log ((docs.length : ℝ) / (dfCount docs w : ℝ)) ∧
    (dfCount docs w = docs.length → computeIDF r docs w = 0) := by
  refine ⟨rfl, fun h => ?_⟩
  unfold computeIDF
  rw [h, div_self (by exact_mod_cast (by omega : docs.length ≠ 0)), Real.log_one]


lemma replace_foldl (ps : List Char) (hsp : ' ' ∉ ps) (s : List Char) :
    ps.foldl (fun acc p => acc.map (fun c => if c = p then ' ' else c)) s =
      s.map (fun c => if c ∈ ps then ' ' else c) := by
  induction ps generalizing s with
  | nil =>
    simp
  | cons p ps ih =>
    have hsp' : ' ' ∉ ps := fun h => hsp (List.mem_cons_of_mem p h)
    have hspp : ' ' ≠ p := fun h => hsp (h ▸ List.mem_cons_self p ps)
    simp only [List.foldl_cons]
    rw [ih hsp' _, List.map_map]
    apply List.map_congr_left
    intro c _
    by_cases hc : c = p
    · subst hc
      simp [if_neg hsp']
    · simp only [Function.comp_apply, if_neg hc, List.mem_cons]
      by_cases hm : c ∈ ps
      · simp [hm]
      · simp [hm, hc]

lemma charOfNat_toNat : ∀ n, n < 128 → (Char.ofNat n).toNat = n := by decide

lemma removePunctuation_eq_map (s : List Char) :
    removePunctuation s =
      s.map (fun c => if toLowerC c ∈ punctuation then ' ' else toLowerC c) := by
  unfold removePunctuation
  rw [replace_foldl punctuation (by decide), List.map_map]
  rfl

lemma toLowerC_idem (c : Char) : toLowerC (toLowerC c) = toLowerC c := by
  by_cases h : 65 ≤ c.toNat ∧ c.toNat ≤ 90
  · have hin : toLowerC c = Char.ofNat (c.toNat + 32) := by rw [toLowerC, if_pos h]
    rw [hin, toLowerC, charOfNat_toNat (c.toNat + 32) (by omega), if_neg (by omega)]
  · have hin : toLowerC c = c := by rw [toLowerC, if_neg h]
    rw [hin]
    exact hin



/-- Claim C8 (counterexample): the claim says exactly the eight characters
`. , ; : ! ? \" \n` are replaced and all other characters (apostrophes,
hyphens, …) are left unchanged; but the C++ loop runs over
`sizeof(punctuation)` bytes, which includes the terminating NUL, so the NUL
character — not in the claimed set — is replaced by a space as well. -/
theorem claim8_counterexample :
    removePunctuation [Char.ofNat 0] = [' '] ∧
    Char.ofNat 0 ∉ ['.', ',', ';', ':', '!', '?', '"', '\n'] ∧
    Char.ofNat 0 ≠ ' ' := by decide

/-- Claim C8 (amended): `removePunctuation` maps each character to its ASCII
lowercase form, and replaces with a space every occurrence of exactly the
nine characters `. , ; : ! ? \" \n NUL` (after lowercasing — these nine are
unaffected by it); all other characters, apostrophes and hyphens included,
are left unchanged. -/
theorem claim8_amended_characterization (s : List Char) :
    removePunctuation s = s.map (fun c =>
      if (if 65 ≤ c.toNat ∧ c.toNat ≤ 90 then Char.ofNat (c.toNat + 32) else c) ∈
          ['.', ',', ';', ':', '!', '?', '"', '\n', Char.ofNat 0] then ' '
      else (if 65 ≤ c.toNat ∧ c.toNat ≤ 90 then Char.ofNat (c.toNat + 32) else c)) := by
  rw [removePunctuation_eq_map]
  rfl

/-- Claim C9: normalization is idempotent — running `removePunctuation` on
already-normalized text returns it unchanged. -/
theorem claim9_normalization_idempotent (s : List Char) :
    removePunctuation (removePunctuation s) = removePunctuation s := by
  rw [removePunctuation_eq_map, removePunctuation_eq_map, List.map_map]
  apply List.map_congr_left
  intro c _
  simp only [Function.comp_apply]
  by_cases hm : toLowerC c ∈ punctuation
  · rw [if_pos hm]
    decide
  · rw [if_neg hm, toLowerC_idem c, if_neg hm]

lemma ite_ne_zero_self (x : ℝ) : (if x ≠ 0 then x else 0) = x := by
  split
  · rfl
  · simp_all
lemma docSum_eq_sum (r : List (List Char)) (c : (List Char) → ℝ) :
    docSum r c = (r.map c).sum := by
  unfold docSum
  exact congrArg List.sum (List.map_congr_left (fun w _ => ite_ne_zero_self (c w)))
lemma refWords_eq : refWords = ["i'd".data, "like".data, "an".data, "apple".data] := by decide

lemma tf1_id : (computeTF refWords Docs).getD 1 (fun _ => 0) ("i'd".data) = 0 := by
  show (if wordCount ("An apple a day keeps the doctor away.".data) ("i'd".data) = 0 then 0
        else (wordCount ("An apple a day keeps the doctor away.".data) ("i'd".data) : ℚ)) /
       (totalWords ("An apple a day keeps the doctor away.".data) : ℚ) = 0
  norm_num [show wordCount ("An apple a day keeps the doctor away.".data) ("i'd".data) = 0 from by decide]
lemma tf1_like : (computeTF refWords Docs).getD 1 (fun _ => 0) ("like".data) = 0 := by
  show (if wordCount ("An apple a day keeps the doctor away.".data) ("like".data) = 0 then 0
        else (wordCount ("An apple a day keeps the doctor away.".data) ("like".data) : ℚ)) /
       (totalWords ("An apple a day keeps the doctor away.".data) : ℚ) = 0
  norm_num [show wordCount ("An apple a day keeps the doctor away.".data) ("like".data) = 0 from by decide]
lemma tf1_an : (computeTF refWords Docs).getD 1 (fun _ => 0) ("an".data) = 1/8 := by
  show (if wordCount ("An apple a day keeps the doctor away.".data) ("an".data) = 0 then 0
        else (wordCount ("An apple a day keeps the doctor away.".data) ("an".data) : ℚ)) /
       (totalWords ("An apple a day keeps the doctor away.".data) : ℚ) = 1/8
  norm_num [show wordCount ("An apple a day keeps the doctor away.".data) ("an".data) = 1 from by decide,
            show totalWords ("An apple a day keeps the doctor away.".data) = 8 from by decide]
lemma tf1_apple : (computeTF refWords Docs).getD 1 (fun _ => 0) ("apple".data) = 1/8 := by
  show (if wordCount ("An apple a day keeps the doctor away.".data) ("apple".data) = 0 then 0
        else (wordCount ("An apple a day keeps the doctor away.".data) ("apple".data) : ℚ)) /
       (totalWords ("An apple a day keeps the doctor away.".data) : ℚ) = 1/8
  norm_num [show wordCount ("An apple a day keeps the doctor away.".data) ("apple".data) = 1 from by decide,
            show totalWords ("An apple a day keeps the doctor away.".data) = 8 from by decide]
lemma idf_an : computeIDF refWords Docs ("an".data) = Real.log ((4 : ℝ) / 3) := by
  have h1 : dfCount Docs ("an".data) = 3 := by decide
  have h2 : Docs.length = 4 := by decide
  simp [computeIDF, h1, h2]
lemma idf_apple : computeIDF refWords Docs ("apple".data) = Real.log ((4 : ℝ) / 3) := by
  have h1 : dfCount Docs ("apple".data) = 3 := by decide
  have h2 : Docs.length = 4 := by decide
  simp [computeIDF, h1, h2]
lemma log43_pos : 0 < Real.log ((4 : ℝ) / 3) := Real.log_pos (by norm_num)

lemma tf_len4 : (computeTF refWords Docs).length = 4 := by decide

lemma docSum_four (c : (List Char) → ℝ) :
    docSum refWords c =
      c ("i'd".data) + (c ("like".data) + (c ("an".data) + (c ("apple".data) + 0))) := by
  rw [docSum_eq_sum, refWords_eq]
  simp only [List.map_cons, List.map_nil, List.sum_cons, List.sum_nil]

lemma S1 : docSum refWords
    ((computeTFIDF refWords (computeTF refWords Docs) (computeIDF refWords Docs)).getD 1 (fun _ => 0)) =
    (1/4 : ℝ) * Real.log ((4 : ℝ) / 3) := by
  have h14 : (1 : ℕ) < (computeTF refWords Docs).length := by rw [tf_len4]; norm_num
  rw [docSum_four]
  rw [computeTFIDF_getD _ _ _ 1 h14 ("i'd".data), computeTFIDF_getD _ _ _ 1 h14 ("like".data),
      computeTFIDF_getD _ _ _ 1 h14 ("an".data), computeTFIDF_getD _ _ _ 1 h14 ("apple".data)]
  rw [tf1_id, tf1_like, tf1_an, tf1_apple, idf_an, idf_apple]
  norm_num [Real.log_eq_zero]
  ring

lemma tf2_id : (computeTF refWords Docs).getD 2 (fun _ => 0) ("i'd".data) = 0 := by
  show (if wordCount ("Never compare an apple to an orange.".data) ("i'd".data) = 0 then 0
        else (wordCount ("Never compare an apple to an orange.".data) ("i'd".data) : ℚ)) /
       (totalWords ("Never compare an apple to an orange.".data) : ℚ) = 0
  norm_num [show wordCount ("Never compare an apple to an orange.".data) ("i'd".data) = 0 from by decide]

lemma tf2_like : (computeTF refWords Docs).getD 2 (fun _ => 0) ("like".data) = 0 := by
  show (if wordCount ("Never compare an apple to an orange.".data) ("like".data) = 0 then 0
        else (wordCount ("Never compare an apple to an orange.".data) ("like".data) : ℚ)) /
       (totalWords ("Never compare an apple to an orange.".data) : ℚ) = 0
  norm_num [show wordCount ("Never compare an apple to an orange.".data) ("like".data) = 0 from by decide]

lemma tf2_an : (computeTF refWords Docs).getD 2 (fun _ => 0) ("an".data) = 2/7 := by
  show (if wordCount ("Never compare an apple to an orange.".data) ("an".data) = 0 then 0
        else (wordCount ("Never compare an apple to an orange.".data) ("an".data) : ℚ)) /
       (totalWords ("Never compare an apple to an orange.".data) : ℚ) = 2/7
  norm_num [show wordCount ("Never compare an apple to an orange.".data) ("an".data) = 2 from by decide,
            show totalWords ("Never compare an apple to an orange.".data) = 7 from by decide]

lemma tf2_apple : (computeTF refWords Docs).getD 2 (fun _ => 0) ("apple".data) = 1/7 := by
  show (if wordCount ("Never compare an apple to an orange.".data) ("apple".data) = 0 then 0
        else (wordCount ("Never compare an apple to an orange.".data) ("apple".data) : ℚ)) /
       (totalWords ("Never compare an apple to an orange.".data) : ℚ) = 1/7
  norm_num [show wordCount ("Never compare an apple to an orange.".data) ("apple".data) = 1 from by decide,
            show totalWords ("Never compare an apple to an orange.".data) = 7 from by decide]

lemma tf3_zero : ∀ w ∈ refWords, (computeTF refWords Docs).getD 3 (fun _ => 0) w = 0 := by
  intro w hw
  have hz : wordCount ("I prefer scikit-learn to orange.".data) w = 0 := by
    fin_cases hw <;> decide
  show (if wordCount ("I prefer scikit-learn to orange.".data) w = 0 then 0
        else (wordCount ("I prefer scikit-learn to orange.".data) w : ℚ)) /
       (totalWords ("I prefer scikit-learn to orange.".data) : ℚ) = 0
  rw [hz]
  norm_num

lemma S2 : docSum refWords
    ((computeTFIDF refWords (computeTF refWords Docs) (computeIDF refWords Docs)).getD 2 (fun _ => 0)) =
    (3/7 : ℝ) * Real.log ((4 : ℝ) / 3) := by
  have h24 : (2 : ℕ) < (computeTF refWords Docs).length := by rw [tf_len4]; norm_num
  rw [docSum_four]
  rw [computeTFIDF_getD _ _ _ 2 h24 ("i'd".data), computeTFIDF_getD _ _ _ 2 h24 ("like".data),
      computeTFIDF_getD _ _ _ 2 h24 ("an".data), computeTFIDF_getD _ _ _ 2 h24 ("apple".data)]
  rw [tf2_id, tf2_like, tf2_an, tf2_apple, idf_an, idf_apple]
  norm_num [Real.log_eq_zero]
  ring

lemma S3 : docSum refWords
    ((computeTFIDF refWords (computeTF refWords Docs) (computeIDF refWords Docs)).getD 3 (fun _ => 0)) =
    0 := by
  have h34 : (3 : ℕ) < (computeTF refWords Docs).length := by rw [tf_len4]; norm_num
  rw [docSum_four]
  rw [computeTFIDF_getD _ _ _ 3 h34 ("i'd".data), computeTFIDF_getD _ _ _ 3 h34 ("like".data),
      computeTFIDF_getD _ _ _ 3 h34 ("an".data), computeTFIDF_getD _ _ _ 3 h34 ("apple".data)]
  rw [tf3_zero ("i'd".data) (by rw [refWords_eq]; simp),
      tf3_zero ("like".data) (by rw [refWords_eq]; simp),
      tf3_zero ("an".data) (by rw [refWords_eq]; simp),
      tf3_zero ("apple".data) (by rw [refWords_eq]; simp)]
  norm_num

lemma tfidf_len4 :
    (computeTFIDF refWords (computeTF refWords Docs) (computeIDF refWords Docs)).length = 4 := by
  have := tf_len4
  simp [computeTFIDF, this]

lemma programOutput_eq_three : programOutput = 3 := by
  have h0 : (0 : ℝ) ≤ (1/4 : ℝ) * Real.log ((4 : ℝ) / 3) := by
    nlinarith [log43_pos]
  have h1 : (1/4 : ℝ) * Real.log ((4 : ℝ) / 3) ≤ (3/7 : ℝ) * Real.log ((4 : ℝ) / 3) := by
    nlinarith [log43_pos]
  have h2 : ¬ ((3/7 : ℝ) * Real.log ((4 : ℝ) / 3) ≤ (0 : ℝ)) := by
    push_neg
    nlinarith [log43_pos]
  unfold programOutput getMostSimilarDocument
  rw [tfidf_len4]
  rw [show (List.range 4).drop 1 = [1, 2, 3] from rfl]
  simp only [List.foldl_cons, List.foldl_nil]
  rw [S1, S2, S3]
  norm_num [h0, h1, h2]

/-- Claim C1 (counterexample): the claim states the program prints exactly `2`
on its hardcoded corpus; in fact the computed output is `3` (document at array
index 2, `"Never compare an apple to an orange."`, has the largest summed
TF-IDF: (2/7 + 1/7)·log(4/3) beats (1/8 + 1/8)·log(4/3)). -/
theorem claim1_counterexample : programOutput ≠ 2 := by
  rw [programOutput_eq_three]
  decide

/-- Claim C1 (amended): when the program is run on its hardcoded four-document
corpus, the integer it writes to standard output is exactly 3. -/
theorem claim1_amended_prints_three : programOutput = 3 := programOutput_eq_three


theorem claim2_witness :
    2 ≤ (computeTFIDF refWords (computeTF refWords Docs) (computeIDF refWords Docs)).length ∧
    (∃ m, 1 ≤ m ∧
      m < (computeTFIDF refWords (computeTF refWords Docs) (computeIDF refWords Docs)).length ∧
      getMostSimilarDocument refWords
        (computeTFIDF refWords (computeTF refWords Docs) (computeIDF refWords Docs)) = (m : ℤ) + 1 ∧
      (∀ j, 1 ≤ j →
        j < (computeTFIDF refWords (computeTF refWords Docs) (computeIDF refWords Docs)).length →
        docSum refWords
          ((computeTFIDF refWords (computeTF refWords Docs) (computeIDF refWords Docs)).getD j
            (fun _ => 0)) ≤
        docSum refWords
          ((computeTFIDF refWords (computeTF refWords Docs) (computeIDF refWords Docs)).getD m
            (fun _ => 0))) ∧
      (∀ j, m < j →
        j < (computeTFIDF refWords (computeTF refWords Docs) (computeIDF refWords Docs)).length →
        docSum refWords
          ((computeTFIDF refWords (computeTF refWords Docs) (computeIDF refWords Docs)).getD j
            (fun _ => 0)) <
        docSum refWords
          ((computeTFIDF refWords (computeTF refWords Docs) (computeIDF refWords Docs)).getD m
            (fun _ => 0))) ∧
      2 ≤ getMostSimilarDocument refWords
        (computeTFIDF refWords (computeTF refWords Docs) (computeIDF refWords Docs))) :=
  ⟨by rw [tfidf_len4]; omega,
   claim2_returns_winner_index_plus_one refWords _ (by rw [tfidf_len4]; omega) (pipeline_cells_nonneg refWords Docs)⟩

theorem claim3_witness :
    getMostSimilarDocument [['a']]
      [fun _ => (0 : ℝ), fun _ => (1 : ℝ), fun _ => (1 : ℝ)] = ((2 : ℕ) : ℤ) + 1 :=
  claim3_tie_prefers_later_document [['a']] [fun _ => (0 : ℝ), fun _ => (1 : ℝ), fun _ => (1 : ℝ)] 1 2
    (by
      intro f hf w
      fin_cases hf <;> norm_num)
    (by norm_num) (by norm_num) (by simp)
    rfl
    (by
      intro k h1 h2
      have h3 : k < 3 := by simpa using h2
      interval_cases k <;> exact le_refl _)
    (by
      intro k h1 h2
      have h3 : k < 3 := by simpa using h2
      omega)

theorem claim4_witness :
    ("an".data ∈ uniqueWords ("I'd... like, an! apple.".data)) ∧
    (1 ≤ dfCount ["I'd... like, an! apple.".data,
                  "An apple a day keeps the doctor away.".data] ("an".data) ∧
      ((dfCount ["I'd... like, an! apple.".data,
                 "An apple a day keeps the doctor away.".data] ("an".data) : ℝ) ≠ 0)) :=
  ⟨by decide,
   claim4_reference_word_df_positive ("I'd... like, an! apple.".data)
     ["An apple a day keeps the doctor away.".data] ("an".data) (by decide)⟩

theorem claim5_witness :
    0 < [fun _ : List Char => (0 : ℚ)].length ∧
    (([fun _ : List Char => (0 : ℚ)].getD 0 (fun _ => 0) [] = 0 ∨
        (fun _ : List Char => (0 : ℝ)) [] = 0 →
      (computeTFIDF [] [fun _ : List Char => (0 : ℚ)]
        (fun _ : List Char => (0 : ℝ))).getD 0 (fun _ => 0) [] = 0) ∧
     ([fun _ : List Char => (0 : ℚ)].getD 0 (fun _ => 0) [] ≠ 0 →
      (fun _ : List Char => (0 : ℝ)) [] ≠ 0 →
      (computeTFIDF [] [fun _ : List Char => (0 : ℚ)]
        (fun _ : List Char => (0 : ℝ))).getD 0 (fun _ => 0) [] =
        ([fun _ : List Char => (0 : ℚ)].getD 0 (fun _ => 0) [] : ℝ) *
          (fun _ : List Char => (0 : ℝ)) [])) :=
  ⟨by decide,
   claim5_tfidf_cell_value [] [fun _ : List Char => (0 : ℚ)] (fun _ : List Char => (0 : ℝ)) 0 (by decide) []⟩

theorem claim6_witness :
    1 < Docs.length ∧ "an".data ∈ refWords ∧ 0 < totalWords (Docs.getD 1 []) ∧
    ((computeTF refWords Docs).getD 1 (fun _ => 0) ("an".data) =
      (wordCount (Docs.getD 1 []) ("an".data) : ℚ) / (totalWords (Docs.getD 1 []) : ℚ) ∧
     totalWords (Docs.getD 1 []) = (tokenizeDoc (Docs.getD 1 [])).length ∧
     0 ≤ (computeTF refWords Docs).getD 1 (fun _ => 0) ("an".data) ∧
     (computeTF refWords Docs).getD 1 (fun _ => 0) ("an".data) ≤ 1) :=
  ⟨by decide, by decide, by decide,
   claim6_tf_value_and_bounds refWords Docs 1 (by decide) ("an".data) (by decide) (by decide)⟩

theorem claim7_witness :
    "an".data ∈ refWords ∧ 1 ≤ dfCount Docs ("an".data) ∧
    (computeIDF refWords Docs ("an".data) =
      Real.log ((Docs.length : ℝ) / (dfCount Docs ("an".data) : ℝ)) ∧
     (dfCount Docs ("an".data) = Docs.length → computeIDF refWords Docs ("an".data) = 0)) :=
  ⟨by decide, by decide, claim7_idf_formula refWords Docs ("an".data) (by decide) (by decide)⟩

theorem claim10_witness :
    ([] : List (List Char → ℝ)).length ≤ 1 ∧ getMostSimilarDocument [] [] = 0 :=
  ⟨by decide, claim10_returns_zero [] [] (by decide)⟩

end SimilarityScores
